import Mathlib

/-!
Verification of the BESS ROI calculation engine (`app/lib/roi.ts`):
the fuel-curve interpolator `fuelLphInterpSimple` and the ROI pipeline
`bessRoi`, embedded over exact rational arithmetic.
-/

namespace BessRoiSpec

/-- The nine scalar inputs of the ROI calculation (`RoiInputs` in `roi.ts`). -/
structure RoiInputs where
  gensetKVA : ℚ
  loadKVA : ℚ
  powerFactor : ℚ
  hoursPerDay : ℚ
  dieselPricePerL : ℚ
  bessSizeKWh : ℚ
  bessPricePerKWh : ℚ
  socMax : ℚ
  socMin : ℚ
deriving DecidableEq, Repr

/-- The derived-metrics record returned on success (`RoiOutputs` in `roi.ts`).
`paybackYears` and `simpleFiveYearROI` are optional (`number | null`). -/
structure RoiOutputs where
  loadPct : ℚ
  loadKW : ℚ
  fuelLph : ℚ
  annualFuelOnlyLitres : ℚ
  annualFuelOnlyCost : ℚ
  dieselKWhPerL : ℚ
  dailyBESSEnergyKWh : ℚ
  fuelSavedPerDayLitres : ℚ
  annualFuelSavingsLitres : ℚ
  annualFuelSavingsCost : ℚ
  bessCyclesPerDay : ℚ
  capex : ℚ
  paybackYears : Option ℚ
  simpleFiveYearROI : Option ℚ
deriving DecidableEq, Repr

/-- One calibration row of the fuel curve (`FuelCurvePoint` in `roi.ts`). -/
structure FuelCurvePoint where
  kva : ℚ
  lph25 : ℚ
  lph50 : ℚ
  lph75 : ℚ
  lph100 : ℚ
deriving DecidableEq, Repr

/-- The distinct failure signals of the engine, one per `throw new Error(...)`
site in `roi.ts` (each site has a distinct message string). -/
inductive RoiError where
  | unknownGensetRating
  | interpolationFailure
  | invalidElectricalInputs
  | invalidSizingInputs
  | invalidSocWindow
  | noChargingHeadroom
  | degenerateBaselineFuel
  | degenerateFullLoadFuel
  | degenerateSocWindow
  | noSurplusPower
  | invalidDutyCycle
  | strategyDoesNotSaveFuel
deriving DecidableEq, Repr

/-- The built-in lookup table `fuelCurveTable` of `roi.ts`, verbatim. -/
def fuelCurveTable : List FuelCurvePoint :=
  [ ⟨10, 0.9, 1.2, 1.7, 2.1⟩,
    ⟨15, 1.3, 1.8, 2.6, 3.2⟩,
    ⟨20, 2.3, 3.4, 4.9, 6.1⟩,
    ⟨30, 4.0, 5.7, 7.6, 8.4⟩,
    ⟨40, 4.9, 6.1, 9.1, 11.0⟩,
    ⟨50, 6.1, 8.7, 12.1, 15.1⟩,
    ⟨60, 7.3, 10.5, 14.1, 15.9⟩,
    ⟨75, 6.8, 11.0, 14.4, 18.2⟩,
    ⟨100, 9.1, 12.9, 17.4, 23.1⟩,
    ⟨125, 9.8, 15.5, 22.0, 28.0⟩,
    ⟨150, 11.7, 18.9, 26.9, 34.4⟩,
    ⟨180, 13.6, 22.3, 31.8, 41.3⟩,
    ⟨200, 15.5, 25.7, 36.7, 48.1⟩,
    ⟨250, 17.8, 29.1, 41.6, 54.5⟩,
    ⟨300, 21.6, 36.0, 51.5, 68.1⟩,
    ⟨350, 25.7, 42.8, 60.9, 81.4⟩,
    ⟨400, 29.9, 49.6, 70.8, 95.0⟩,
    ⟨500, 33.7, 56.4, 80.6, 108.3⟩,
    ⟨600, 41.6, 70.0, 99.9, 135.1⟩,
    ⟨800, 61.7, 79.3, 119.1, 161.0⟩,
    ⟨1000, 75.9, 111.9, 153.0, 222.3⟩,
    ⟨1250, 81.8, 137.7, 197.2, 269.1⟩ ]

/-- The `for (let i = 0; i < 3; i++)` bracket-search loop of
`fuelLphInterpSimple`, over the list of adjacent breakpoint pairs
`((x[i], y[i]), (x[i+1], y[i+1]))`.  Falling off the end is the
`throw new Error("Interpolation failed")` branch. -/
def bracketSearch (loadPct : ℚ) : List ((ℚ × ℚ) × (ℚ × ℚ)) → Except RoiError ℚ
  | [] => .error .interpolationFailure
  | ((x0, y0), (x1, y1)) :: rest =>
    if x0 ≤ loadPct ∧ loadPct ≤ x1 then
      .ok (y0 + (loadPct - x0) / (x1 - x0) * (y1 - y0))
    else bracketSearch loadPct rest

/-- The interpolator `fuelLphInterpSimple(gensetKVA, loadPct, table)` of
`roi.ts`: exact-key row lookup, clamp to the 25% / 100% samples outside
`[0.25, 1]`, otherwise linear interpolation between the bracketing
breakpoints. -/
def fuelLphInterpSimple (gensetKVA loadPct : ℚ) (table : List FuelCurvePoint) :
    Except RoiError ℚ :=
  match table.find? (fun r => decide (r.kva = gensetKVA)) with
  | none => .error .unknownGensetRating
  | some row =>
    if loadPct ≤ 0.25 then .ok row.lph25
    else if 1 ≤ loadPct then .ok row.lph100
    else bracketSearch loadPct
      [((0.25, row.lph25), (0.5, row.lph50)),
       ((0.5, row.lph50), (0.75, row.lph75)),
       ((0.75, row.lph75), (1, row.lph100))]

/-- The ROI engine `bessRoi(inputs, table)` of `roi.ts`, line by line:
validation gates, two interpolator calls with degeneracy checks, duty-cycle
timing, fuel and cost accounting, the BESS-cycles block with its own guards,
and capex / payback / five-year ROI. -/
def bessRoi (i : RoiInputs) (table : List FuelCurvePoint) :
    Except RoiError RoiOutputs :=
  if i.gensetKVA ≤ 0 ∨ i.loadKVA ≤ 0 ∨ i.powerFactor ≤ 0 then
    .error .invalidElectricalInputs
  else if i.hoursPerDay ≤ 0 ∨ i.bessSizeKWh ≤ 0 ∨ i.bessPricePerKWh ≤ 0 then
    .error .invalidSizingInputs
  else if i.socMax ≤ i.socMin ∨ 1 < i.socMax ∨ i.socMin < 0 then
    .error .invalidSocWindow
  else
    let loadKW := i.loadKVA * i.powerFactor
    let gensetKW := i.gensetKVA * i.powerFactor
    if loadKW ≥ gensetKW then .error .noChargingHeadroom
    else
      let loadPct := i.loadKVA / i.gensetKVA
      match fuelLphInterpSimple i.gensetKVA loadPct table with
      | .error e => .error e
      | .ok fuelBase_Lph =>
        if fuelBase_Lph ≤ 0 then .error .degenerateBaselineFuel
        else
          match fuelLphInterpSimple i.gensetKVA 1 table with
          | .error e => .error e
          | .ok fuelFull_Lph =>
            if fuelFull_Lph ≤ 0 then .error .degenerateFullLoadFuel
            else
              let E_batt_use := i.bessSizeKWh * (i.socMax - i.socMin)
              if E_batt_use ≤ 0 then .error .degenerateSocWindow
              else
                let P_ch := gensetKW - loadKW
                if P_ch ≤ 0 then .error .noSurplusPower
                else
                  let t_ch := E_batt_use / P_ch
                  let t_dis := E_batt_use / loadKW
                  if t_ch ≤ 0 ∨ t_dis ≤ 0 then .error .invalidDutyCycle
                  else
                    let T_cycle := t_ch + t_dis
                    let onFraction := t_ch / T_cycle
                    let gensetHoursPerDay := i.hoursPerDay * onFraction
                    let fuelDay_base_L := fuelBase_Lph * i.hoursPerDay
                    let annualFuelOnlyLitres := fuelDay_base_L * 365
                    let annualFuelOnlyCost := annualFuelOnlyLitres * i.dieselPricePerL
                    let fuelDay_new_L := fuelFull_Lph * gensetHoursPerDay
                    let fuelSavedPerDay_L := fuelDay_base_L - fuelDay_new_L
                    if fuelSavedPerDay_L ≤ 0 then .error .strategyDoesNotSaveFuel
                    else
                      let annualFuelSavingsLitres := fuelSavedPerDay_L * 365
                      let annualFuelSavingsCost := annualFuelSavingsLitres * i.dieselPricePerL
                      let dieselKWhPerL := loadKW / fuelBase_Lph
                      let dailyBESSEnergyKWh := fuelSavedPerDay_L * dieselKWhPerL
                      let headroomKW := gensetKW - loadKW
                      let bessCyclesPerDay :=
                        if headroomKW > 0 ∧ i.bessSizeKWh > 0 ∧ i.socMax > i.socMin then
                          let denom := i.bessSizeKWh * (i.socMax - i.socMin) * (headroomKW + loadKW)
                          if denom ≠ 0 then i.hoursPerDay * headroomKW * loadKW / denom
                          else 0
                        else 0
                      let capex := i.bessSizeKWh * i.bessPricePerKWh
                      let paybackYears :=
                        if annualFuelSavingsCost > 0 then some (capex / annualFuelSavingsCost)
                        else none
                      let totalSavings5y := annualFuelSavingsCost * 5
                      let simpleFiveYearROI :=
                        if capex > 0 then some ((totalSavings5y - capex) / capex * 100)
                        else none
                      .ok { loadPct := loadPct
                            loadKW := loadKW
                            fuelLph := fuelBase_Lph
                            annualFuelOnlyLitres := annualFuelOnlyLitres
                            annualFuelOnlyCost := annualFuelOnlyCost
                            dieselKWhPerL := dieselKWhPerL
                            dailyBESSEnergyKWh := dailyBESSEnergyKWh
                            fuelSavedPerDayLitres := fuelSavedPerDay_L
                            annualFuelSavingsLitres := annualFuelSavingsLitres
                            annualFuelSavingsCost := annualFuelSavingsCost
                            bessCyclesPerDay := bessCyclesPerDay
                            capex := capex
                            paybackYears := paybackYears
                            simpleFiveYearROI := simpleFiveYearROI }

/-- The default scenario of the UI form (`defaultInputs` in `page.tsx`),
which is also the spec's end-to-end scenario A. -/
def scenarioA : RoiInputs :=
  { gensetKVA := 125
    loadKVA := 56
    powerFactor := 0.8
    hoursPerDay := 10
    dieselPricePerL := 3
    bessSizeKWh := 520
    bessPricePerKWh := 650
    socMax := 1
    socMin := 0.2 }

/-- The exact result record of `bessRoi` on scenario A with the built-in table. -/
def scenarioAOutput : RoiOutputs :=
  { loadPct := 56/125
    loadKW := 224/5
    fuelLph := 17893/1250
    annualFuelOnlyLitres := 1306189/25
    annualFuelOnlyCost := 3918567/25
    dieselKWhPerL := 56000/17893
    dailyBESSEnergyKWh := 991424/17893
    fuelSavedPerDayLitres := 2213/125
    annualFuelSavingsLitres := 161549/25
    annualFuelSavingsCost := 484647/25
    bessCyclesPerDay := 966/1625
    capex := 338000
    paybackYears := some (8450000/484647)
    simpleFiveYearROI := some (-1205353/16900) }

/-- Scenario A with a zero diesel price: every validation gate and derivation
guard still passes, but all fuel-cost figures collapse to zero. -/
def freeFuelInputs : RoiInputs :=
  { scenarioA with dieselPricePerL := 0 }

/-- The exact result record of `bessRoi` on `freeFuelInputs`. -/
def freeFuelOutput : RoiOutputs :=
  { loadPct := 56/125
    loadKW := 224/5
    fuelLph := 17893/1250
    annualFuelOnlyLitres := 1306189/25
    annualFuelOnlyCost := 0
    dieselKWhPerL := 56000/17893
    dailyBESSEnergyKWh := 991424/17893
    fuelSavedPerDayLitres := 2213/125
    annualFuelSavingsLitres := 161549/25
    annualFuelSavingsCost := 0
    bessCyclesPerDay := 966/1625
    capex := 338000
    paybackYears := none
    simpleFiveYearROI := some (-100) }

instance {ε α : Type} [DecidableEq ε] [DecidableEq α] : DecidableEq (Except ε α) :=
  fun x y =>
    match x, y with
    | .ok a, .ok b =>
      if h : a = b then .isTrue (by rw [h]) else .isFalse (fun hh => h (Except.ok.inj hh))
    | .error a, .error b =>
      if h : a = b then .isTrue (by rw [h]) else .isFalse (fun hh => h (Except.error.inj hh))
    | .ok _, .error _ => .isFalse (fun hh => Except.noConfusion hh)
    | .error _, .ok _ => .isFalse (fun hh => Except.noConfusion hh)

/-- The output record built by the success branch of `bessRoi`, as a function
of the inputs and the two interpolated fuel rates.  Field for field the
trailing `let` chain of `roi.ts`. -/
def successOutputs (i : RoiInputs) (fuelBase_Lph fuelFull_Lph : ℚ) : RoiOutputs :=
  let loadKW := i.loadKVA * i.powerFactor
  let gensetKW := i.gensetKVA * i.powerFactor
  let loadPct := i.loadKVA / i.gensetKVA
  let E_batt_use := i.bessSizeKWh * (i.socMax - i.socMin)
  let P_ch := gensetKW - loadKW
  let t_ch := E_batt_use / P_ch
  let t_dis := E_batt_use / loadKW
  let T_cycle := t_ch + t_dis
  let onFraction := t_ch / T_cycle
  let gensetHoursPerDay := i.hoursPerDay * onFraction
  let fuelDay_base_L := fuelBase_Lph * i.hoursPerDay
  let annualFuelOnlyLitres := fuelDay_base_L * 365
  let annualFuelOnlyCost := annualFuelOnlyLitres * i.dieselPricePerL
  let fuelDay_new_L := fuelFull_Lph * gensetHoursPerDay
  let fuelSavedPerDay_L := fuelDay_base_L - fuelDay_new_L
  let annualFuelSavingsLitres := fuelSavedPerDay_L * 365
  let annualFuelSavingsCost := annualFuelSavingsLitres * i.dieselPricePerL
  let dieselKWhPerL := loadKW / fuelBase_Lph
  let dailyBESSEnergyKWh := fuelSavedPerDay_L * dieselKWhPerL
  let headroomKW := gensetKW - loadKW
  let bessCyclesPerDay :=
    if headroomKW > 0 ∧ i.bessSizeKWh > 0 ∧ i.socMax > i.socMin then
      let denom := i.bessSizeKWh * (i.socMax - i.socMin) * (headroomKW + loadKW)
      if denom ≠ 0 then i.hoursPerDay * headroomKW * loadKW / denom
      else 0
    else 0
  let capex := i.bessSizeKWh * i.bessPricePerKWh
  let paybackYears :=
    if annualFuelSavingsCost > 0 then some (capex / annualFuelSavingsCost)
    else none
  let totalSavings5y := annualFuelSavingsCost * 5
  let simpleFiveYearROI :=
    if capex > 0 then some ((totalSavings5y - capex) / capex * 100)
    else none
  { loadPct := loadPct
    loadKW := loadKW
    fuelLph := fuelBase_Lph
    annualFuelOnlyLitres := annualFuelOnlyLitres
    annualFuelOnlyCost := annualFuelOnlyCost
    dieselKWhPerL := dieselKWhPerL
    dailyBESSEnergyKWh := dailyBESSEnergyKWh
    fuelSavedPerDayLitres := fuelSavedPerDay_L
    annualFuelSavingsLitres := annualFuelSavingsLitres
    annualFuelSavingsCost := annualFuelSavingsCost
    bessCyclesPerDay := bessCyclesPerDay
    capex := capex
    paybackYears := paybackYears
    simpleFiveYearROI := simpleFiveYearROI }

/-- Row lookup by exact key match hits the given row whenever the row is in the
table and the table's ratings are pairwise distinct. -/
theorem find_row_of_mem (t : List FuelCurvePoint) (row : FuelCurvePoint)
    (hnd : t.Pairwise (fun a b => a.kva ≠ b.kva)) (hmem : row ∈ t) :
    t.find? (fun r => decide (r.kva = row.kva)) = some row := by
  induction t with
  | nil => cases hmem
  | cons a l ih =>
    rcases List.mem_cons.mp hmem with h | h
    · subst h
      simp [List.find?]
    · have hne : a.kva ≠ row.kva := (List.pairwise_cons.mp hnd).1 row h
      have ihl := ih (List.pairwise_cons.mp hnd).2 h
      simp [List.find?, hne, ihl]

/-- The bracket-search loop only ever fails with `interpolationFailure`. -/
theorem bracketSearch_error (loadPct : ℚ) (l : List ((ℚ × ℚ) × (ℚ × ℚ)))
    (e : RoiError) (h : bracketSearch loadPct l = .error e) :
    e = RoiError.interpolationFailure := by
  induction l with
  | nil =>
    simp only [bracketSearch] at h
    exact (Except.error.inj h).symm
  | cons p rest ih =>
    obtain ⟨⟨x0, y0⟩, x1, y1⟩ := p
    simp only [bracketSearch] at h
    split at h
    · exact Except.noConfusion h
    · exact ih h

/-- The interpolator only ever fails with `unknownGensetRating` (rating not in
the table) or the defensive `interpolationFailure`. -/
theorem fuelLphInterpSimple_error (k p : ℚ) (t : List FuelCurvePoint)
    (e : RoiError) (h : fuelLphInterpSimple k p t = .error e) :
    e = RoiError.unknownGensetRating ∨ e = RoiError.interpolationFailure := by
  simp only [fuelLphInterpSimple] at h
  split at h
  · exact Or.inl (Except.error.inj h).symm
  · split at h
    · exact Except.noConfusion h
    · split at h
      · exact Except.noConfusion h
      · exact Or.inr (bracketSearch_error _ _ _ h)

/-- Linear interpolation from `a` at `x0` to `b` at `x1`, evaluated at `x1`. -/
theorem lin_interp_right (a b x0 x1 : ℚ) (h : x1 - x0 ≠ 0) :
    a + (x1 - x0) / (x1 - x0) * (b - a) = b := by
  rw [div_self h]
  ring

theorem scenarioA_eval : bessRoi scenarioA fuelCurveTable = .ok scenarioAOutput := by
  with_unfolding_all rfl

theorem freeFuel_eval : bessRoi freeFuelInputs fuelCurveTable = .ok freeFuelOutput := by
  with_unfolding_all rfl

/-- The 125 kVA row of the built-in table. -/
def row125 : FuelCurvePoint := ⟨125, 9.8, 15.5, 22.0, 28.0⟩

/-- The ratings of the built-in table are pairwise distinct. -/
theorem table_pairwise_kva : fuelCurveTable.Pairwise (fun a b => a.kva ≠ b.kva) :=
  of_decide_eq_true (by with_unfolding_all rfl)

theorem row125_mem : row125 ∈ fuelCurveTable :=
  of_decide_eq_true (by with_unfolding_all rfl)

/-- C5: for every row of a table with pairwise-distinct ratings, the
interpolator returns exactly that row's sample at each of the four
breakpoints 0.25, 0.50, 0.75, 1.00. -/
theorem interp_exact_at_breakpoints (t : List FuelCurvePoint) (row : FuelCurvePoint)
    (hnd : t.Pairwise (fun a b => a.kva ≠ b.kva)) (hmem : row ∈ t) :
    fuelLphInterpSimple row.kva 0.25 t = .ok row.lph25 ∧
    fuelLphInterpSimple row.kva 0.5 t = .ok row.lph50 ∧
    fuelLphInterpSimple row.kva 0.75 t = .ok row.lph75 ∧
    fuelLphInterpSimple row.kva 1 t = .ok row.lph100 := by
  have hf := find_row_of_mem t row hnd hmem
  refine ⟨?_, ?_, ?_, ?_⟩
  · simp only [fuelLphInterpSimple, hf]
    rw [if_pos (by norm_num : (0.25 : ℚ) ≤ 0.25)]
  · simp only [fuelLphInterpSimple, hf]
    rw [if_neg (by norm_num : ¬((0.5 : ℚ) ≤ 0.25)),
        if_neg (by norm_num : ¬((1 : ℚ) ≤ 0.5))]
    simp only [bracketSearch]
    rw [if_pos (by norm_num : (0.25 : ℚ) ≤ 0.5 ∧ (0.5 : ℚ) ≤ 0.5)]
    exact congrArg Except.ok (lin_interp_right _ _ _ _ (by norm_num))
  · simp only [fuelLphInterpSimple, hf]
    rw [if_neg (by norm_num : ¬((0.75 : ℚ) ≤ 0.25)),
        if_neg (by norm_num : ¬((1 : ℚ) ≤ 0.75))]
    simp only [bracketSearch]
    rw [if_neg (by norm_num : ¬((0.25 : ℚ) ≤ 0.75 ∧ (0.75 : ℚ) ≤ 0.5)),
        if_pos (by norm_num : (0.5 : ℚ) ≤ 0.75 ∧ (0.75 : ℚ) ≤ 0.75)]
    exact congrArg Except.ok (lin_interp_right _ _ _ _ (by norm_num))
  · simp only [fuelLphInterpSimple, hf]
    rw [if_neg (by norm_num : ¬((1 : ℚ) ≤ 0.25)), if_pos (le_refl (1 : ℚ))]

/-- Witness for C5 at the 125 kVA row of the built-in table. -/
theorem interp_exact_at_breakpoints_witness :
    fuelLphInterpSimple 125 0.25 fuelCurveTable = .ok 9.8 ∧
    fuelLphInterpSimple 125 0.5 fuelCurveTable = .ok 15.5 ∧
    fuelLphInterpSimple 125 0.75 fuelCurveTable = .ok 22.0 ∧
    fuelLphInterpSimple 125 1 fuelCurveTable = .ok 28.0 :=
  interp_exact_at_breakpoints fuelCurveTable row125 table_pairwise_kva row125_mem

/-- C6: below the 25% breakpoint the interpolator clamps to the 25% sample,
and at or above 100% it clamps to the 100% sample, for every real load
fraction. -/
theorem interp_clamp (t : List FuelCurvePoint) (row : FuelCurvePoint)
    (hnd : t.Pairwise (fun a b => a.kva ≠ b.kva)) (hmem : row ∈ t)
    (loadPct : ℚ) :
    (loadPct ≤ 0.25 → fuelLphInterpSimple row.kva loadPct t = .ok row.lph25) ∧
    (1 ≤ loadPct → fuelLphInterpSimple row.kva loadPct t = .ok row.lph100) := by
  have hf := find_row_of_mem t row hnd hmem
  constructor
  · intro hle
    simp only [fuelLphInterpSimple, hf]
    rw [if_pos hle]
  · intro hge
    simp only [fuelLphInterpSimple, hf]
    rw [if_neg (by linarith : ¬(loadPct ≤ 0.25)), if_pos hge]

/-- Witness for C6: load fractions 0.1 and 1.7 at the 125 kVA row. -/
theorem interp_clamp_witness :
    fuelLphInterpSimple 125 0.1 fuelCurveTable = .ok 9.8 ∧
    fuelLphInterpSimple 125 1.7 fuelCurveTable = .ok 28.0 :=
  ⟨(interp_clamp fuelCurveTable row125 table_pairwise_kva row125_mem 0.1).1
      (by norm_num),
   (interp_clamp fuelCurveTable row125 table_pairwise_kva row125_mem 1.7).2
      (by norm_num)⟩

/-- C7: a rating matching no row key fails with `unknownGensetRating` for every
load fraction, and a present rating never produces that error. -/
theorem interp_unknown_rating (t : List FuelCurvePoint) (k loadPct : ℚ) :
    ((∀ row ∈ t, row.kva ≠ k) →
      fuelLphInterpSimple k loadPct t = .error .unknownGensetRating) ∧
    ((∃ row ∈ t, row.kva = k) →
      fuelLphInterpSimple k loadPct t ≠ .error .unknownGensetRating) := by
  constructor
  · intro hall
    have hn : t.find? (fun r => decide (r.kva = k)) = none := by
      rw [List.find?_eq_none]
      intro x hx
      simpa using hall x hx
    simp only [fuelLphInterpSimple, hn]
  · rintro ⟨row, hmem, hk⟩
    have hsome : (t.find? (fun r => decide (r.kva = k))).isSome := by
      rw [List.find?_isSome]
      exact ⟨row, hmem, by simpa using hk⟩
    obtain ⟨row', hf⟩ := Option.isSome_iff_exists.mp hsome
    simp only [fuelLphInterpSimple, hf]
    intro hh
    split at hh
    · exact Except.noConfusion hh
    · split at hh
      · exact Except.noConfusion hh
      · exact RoiError.noConfusion (bracketSearch_error _ _ _ hh)

/-- Witness for C7: rating 9999 is absent from the built-in table, 125 is
present. -/
theorem interp_unknown_rating_witness :
    fuelLphInterpSimple 9999 0.5 fuelCurveTable = .error .unknownGensetRating ∧
    fuelLphInterpSimple 125 0.5 fuelCurveTable ≠ .error .unknownGensetRating :=
  ⟨(interp_unknown_rating fuelCurveTable 9999 0.5).1
      (of_decide_eq_true (by with_unfolding_all rfl)),
   (interp_unknown_rating fuelCurveTable 125 0.5).2 ⟨row125, row125_mem, rfl⟩⟩

/-- C8: for a present rating and a load fraction strictly inside (0.25, 1),
the bracket search always finds a bracketing pair, so the interpolator
returns a value (the `interpolationFailure` branch is unreachable). -/
theorem interp_interior_total (t : List FuelCurvePoint) (k loadPct : ℚ)
    (hpresent : ∃ row ∈ t, row.kva = k)
    (hlo : 0.25 < loadPct) (hhi : loadPct < 1) :
    ∃ v, fuelLphInterpSimple k loadPct t = .ok v := by
  obtain ⟨row, hmem, hk⟩ := hpresent
  have hsome : (t.find? (fun r => decide (r.kva = k))).isSome := by
    rw [List.find?_isSome]
    exact ⟨row, hmem, by simpa using hk⟩
  obtain ⟨row', hf⟩ := Option.isSome_iff_exists.mp hsome
  simp only [fuelLphInterpSimple, hf]
  rw [if_neg (by linarith : ¬(loadPct ≤ 0.25)),
      if_neg (by linarith : ¬((1 : ℚ) ≤ loadPct))]
  simp only [bracketSearch]
  rcases le_or_lt loadPct 0.5 with h1 | h1
  · rw [if_pos ⟨le_of_lt hlo, h1⟩]
    exact ⟨_, rfl⟩
  · rw [if_neg (fun hc => absurd hc.2 (not_le.mpr h1))]
    rcases le_or_lt loadPct 0.75 with h2 | h2
    · rw [if_pos ⟨le_of_lt h1, h2⟩]
      exact ⟨_, rfl⟩
    · rw [if_neg (fun hc => absurd hc.2 (not_le.mpr h2)),
          if_pos ⟨le_of_lt h2, le_of_lt hhi⟩]
      exact ⟨_, rfl⟩

/-- Witness for C8 at rating 125 and load fraction 0.448. -/
theorem interp_interior_total_witness :
    ∃ v, fuelLphInterpSimple 125 0.448 fuelCurveTable = .ok v :=
  interp_interior_total fuelCurveTable 125 0.448 ⟨row125, row125_mem, rfl⟩
    (by norm_num) (by norm_num)

/-- Gate 1: non-positive rating, load or power factor. -/
theorem bessRoi_error_elec (i : RoiInputs) (t : List FuelCurvePoint)
    (h1 : i.gensetKVA ≤ 0 ∨ i.loadKVA ≤ 0 ∨ i.powerFactor ≤ 0) :
    bessRoi i t = .error .invalidElectricalInputs := by
  simp only [bessRoi]
  rw [if_pos h1]

/-- Gate 2: non-positive hours, battery size or battery price. -/
theorem bessRoi_error_sizing (i : RoiInputs) (t : List FuelCurvePoint)
    (h1 : ¬(i.gensetKVA ≤ 0 ∨ i.loadKVA ≤ 0 ∨ i.powerFactor ≤ 0))
    (h2 : i.hoursPerDay ≤ 0 ∨ i.bessSizeKWh ≤ 0 ∨ i.bessPricePerKWh ≤ 0) :
    bessRoi i t = .error .invalidSizingInputs := by
  simp only [bessRoi]
  rw [if_neg h1, if_pos h2]

/-- Gate 3: inverted or out-of-range SOC window. -/
theorem bessRoi_error_soc (i : RoiInputs) (t : List FuelCurvePoint)
    (h1 : ¬(i.gensetKVA ≤ 0 ∨ i.loadKVA ≤ 0 ∨ i.powerFactor ≤ 0))
    (h2 : ¬(i.hoursPerDay ≤ 0 ∨ i.bessSizeKWh ≤ 0 ∨ i.bessPricePerKWh ≤ 0))
    (h3 : i.socMax ≤ i.socMin ∨ 1 < i.socMax ∨ i.socMin < 0) :
    bessRoi i t = .error .invalidSocWindow := by
  simp only [bessRoi]
  rw [if_neg h1, if_neg h2, if_pos h3]

/-- Gate 4: load power at or above genset power. -/
theorem bessRoi_error_headroom (i : RoiInputs) (t : List FuelCurvePoint)
    (h1 : ¬(i.gensetKVA ≤ 0 ∨ i.loadKVA ≤ 0 ∨ i.powerFactor ≤ 0))
    (h2 : ¬(i.hoursPerDay ≤ 0 ∨ i.bessSizeKWh ≤ 0 ∨ i.bessPricePerKWh ≤ 0))
    (h3 : ¬(i.socMax ≤ i.socMin ∨ 1 < i.socMax ∨ i.socMin < 0))
    (h4 : i.loadKVA * i.powerFactor ≥ i.gensetKVA * i.powerFactor) :
    bessRoi i t = .error .noChargingHeadroom := by
  simp only [bessRoi]
  rw [if_neg h1, if_neg h2, if_neg h3, if_pos h4]

/-- A failing baseline interpolation propagates its error. -/
theorem bessRoi_error_interpBase (i : RoiInputs) (t : List FuelCurvePoint)
    (h1 : ¬(i.gensetKVA ≤ 0 ∨ i.loadKVA ≤ 0 ∨ i.powerFactor ≤ 0))
    (h2 : ¬(i.hoursPerDay ≤ 0 ∨ i.bessSizeKWh ≤ 0 ∨ i.bessPricePerKWh ≤ 0))
    (h3 : ¬(i.socMax ≤ i.socMin ∨ 1 < i.socMax ∨ i.socMin < 0))
    (h4 : ¬(i.loadKVA * i.powerFactor ≥ i.gensetKVA * i.powerFactor))
    (e : RoiError)
    (hB : fuelLphInterpSimple i.gensetKVA (i.loadKVA / i.gensetKVA) t = .error e) :
    bessRoi i t = .error e := by
  simp only [bessRoi]
  rw [if_neg h1, if_neg h2, if_neg h3, if_neg h4]
  simp only [hB]

/-- A non-positive baseline fuel rate is rejected. -/
theorem bessRoi_error_baseNonpos (i : RoiInputs) (t : List FuelCurvePoint)
    (h1 : ¬(i.gensetKVA ≤ 0 ∨ i.loadKVA ≤ 0 ∨ i.powerFactor ≤ 0))
    (h2 : ¬(i.hoursPerDay ≤ 0 ∨ i.bessSizeKWh ≤ 0 ∨ i.bessPricePerKWh ≤ 0))
    (h3 : ¬(i.socMax ≤ i.socMin ∨ 1 < i.socMax ∨ i.socMin < 0))
    (h4 : ¬(i.loadKVA * i.powerFactor ≥ i.gensetKVA * i.powerFactor))
    (fb : ℚ)
    (hB : fuelLphInterpSimple i.gensetKVA (i.loadKVA / i.gensetKVA) t = .ok fb)
    (hb0 : fb ≤ 0) :
    bessRoi i t = .error .degenerateBaselineFuel := by
  simp only [bessRoi]
  rw [if_neg h1, if_neg h2, if_neg h3, if_neg h4]
  simp only [hB]
  rw [if_pos hb0]

/-- A failing full-load interpolation propagates its error. -/
theorem bessRoi_error_interpFull (i : RoiInputs) (t : List FuelCurvePoint)
    (h1 : ¬(i.gensetKVA ≤ 0 ∨ i.loadKVA ≤ 0 ∨ i.powerFactor ≤ 0))
    (h2 : ¬(i.hoursPerDay ≤ 0 ∨ i.bessSizeKWh ≤ 0 ∨ i.bessPricePerKWh ≤ 0))
    (h3 : ¬(i.socMax ≤ i.socMin ∨ 1 < i.socMax ∨ i.socMin < 0))
    (h4 : ¬(i.loadKVA * i.powerFactor ≥ i.gensetKVA * i.powerFactor))
    (fb : ℚ)
    (hB : fuelLphInterpSimple i.gensetKVA (i.loadKVA / i.gensetKVA) t = .ok fb)
    (hb0 : ¬(fb ≤ 0))
    (e : RoiError)
    (hF : fuelLphInterpSimple i.gensetKVA 1 t = .error e) :
    bessRoi i t = .error e := by
  simp only [bessRoi]
  rw [if_neg h1, if_neg h2, if_neg h3, if_neg h4]
  simp only [hB]
  rw [if_neg hb0]
  simp only [hF]

/-- A non-positive full-load fuel rate is rejected. -/
theorem bessRoi_error_fullNonpos (i : RoiInputs) (t : List FuelCurvePoint)
    (h1 : ¬(i.gensetKVA ≤ 0 ∨ i.loadKVA ≤ 0 ∨ i.powerFactor ≤ 0))
    (h2 : ¬(i.hoursPerDay ≤ 0 ∨ i.bessSizeKWh ≤ 0 ∨ i.bessPricePerKWh ≤ 0))
    (h3 : ¬(i.socMax ≤ i.socMin ∨ 1 < i.socMax ∨ i.socMin < 0))
    (h4 : ¬(i.loadKVA * i.powerFactor ≥ i.gensetKVA * i.powerFactor))
    (fb : ℚ)
    (hB : fuelLphInterpSimple i.gensetKVA (i.loadKVA / i.gensetKVA) t = .ok fb)
    (hb0 : ¬(fb ≤ 0))
    (ff : ℚ)
    (hF : fuelLphInterpSimple i.gensetKVA 1 t = .ok ff)
    (hf0 : ff ≤ 0) :
    bessRoi i t = .error .degenerateFullLoadFuel := by
  simp only [bessRoi]
  rw [if_neg h1, if_neg h2, if_neg h3, if_neg h4]
  simp only [hB]
  rw [if_neg hb0]
  simp only [hF]
  rw [if_pos hf0]

/-- A non-positive usable SOC energy window is rejected. -/
theorem bessRoi_error_socEnergy (i : RoiInputs) (t : List FuelCurvePoint)
    (h1 : ¬(i.gensetKVA ≤ 0 ∨ i.loadKVA ≤ 0 ∨ i.powerFactor ≤ 0))
    (h2 : ¬(i.hoursPerDay ≤ 0 ∨ i.bessSizeKWh ≤ 0 ∨ i.bessPricePerKWh ≤ 0))
    (h3 : ¬(i.socMax ≤ i.socMin ∨ 1 < i.socMax ∨ i.socMin < 0))
    (h4 : ¬(i.loadKVA * i.powerFactor ≥ i.gensetKVA * i.powerFactor))
    (fb : ℚ)
    (hB : fuelLphInterpSimple i.gensetKVA (i.loadKVA / i.gensetKVA) t = .ok fb)
    (hb0 : ¬(fb ≤ 0))
    (ff : ℚ)
    (hF : fuelLphInterpSimple i.gensetKVA 1 t = .ok ff)
    (hf0 : ¬(ff ≤ 0))
    (hE : i.bessSizeKWh * (i.socMax - i.socMin) ≤ 0) :
    bessRoi i t = .error .degenerateSocWindow := by
  simp only [bessRoi]
  rw [if_neg h1, if_neg h2, if_neg h3, if_neg h4]
  simp only [hB]
  rw [if_neg hb0]
  simp only [hF]
  rw [if_neg hf0, if_pos hE]

/-- A non-positive surplus power is rejected by the redundant guard. -/
theorem bessRoi_error_surplus (i : RoiInputs) (t : List FuelCurvePoint)
    (h1 : ¬(i.gensetKVA ≤ 0 ∨ i.loadKVA ≤ 0 ∨ i.powerFactor ≤ 0))
    (h2 : ¬(i.hoursPerDay ≤ 0 ∨ i.bessSizeKWh ≤ 0 ∨ i.bessPricePerKWh ≤ 0))
    (h3 : ¬(i.socMax ≤ i.socMin ∨ 1 < i.socMax ∨ i.socMin < 0))
    (h4 : ¬(i.loadKVA * i.powerFactor ≥ i.gensetKVA * i.powerFactor))
    (fb : ℚ)
    (hB : fuelLphInterpSimple i.gensetKVA (i.loadKVA / i.gensetKVA) t = .ok fb)
    (hb0 : ¬(fb ≤ 0))
    (ff : ℚ)
    (hF : fuelLphInterpSimple i.gensetKVA 1 t = .ok ff)
    (hf0 : ¬(ff ≤ 0))
    (hE : ¬(i.bessSizeKWh * (i.socMax - i.socMin) ≤ 0))
    (hP : i.gensetKVA * i.powerFactor - i.loadKVA * i.powerFactor ≤ 0) :
    bessRoi i t = .error .noSurplusPower := by
  simp only [bessRoi]
  rw [if_neg h1, if_neg h2, if_neg h3, if_neg h4]
  simp only [hB]
  rw [if_neg hb0]
  simp only [hF]
  rw [if_neg hf0, if_neg hE, if_pos hP]

/-- A non-positive charge or discharge time is rejected. -/
theorem bessRoi_error_duty (i : RoiInputs) (t : List FuelCurvePoint)
    (h1 : ¬(i.gensetKVA ≤ 0 ∨ i.loadKVA ≤ 0 ∨ i.powerFactor ≤ 0))
    (h2 : ¬(i.hoursPerDay ≤ 0 ∨ i.bessSizeKWh ≤ 0 ∨ i.bessPricePerKWh ≤ 0))
    (h3 : ¬(i.socMax ≤ i.socMin ∨ 1 < i.socMax ∨ i.socMin < 0))
    (h4 : ¬(i.loadKVA * i.powerFactor ≥ i.gensetKVA * i.powerFactor))
    (fb : ℚ)
    (hB : fuelLphInterpSimple i.gensetKVA (i.loadKVA / i.gensetKVA) t = .ok fb)
    (hb0 : ¬(fb ≤ 0))
    (ff : ℚ)
    (hF : fuelLphInterpSimple i.gensetKVA 1 t = .ok ff)
    (hf0 : ¬(ff ≤ 0))
    (hE : ¬(i.bessSizeKWh * (i.socMax - i.socMin) ≤ 0))
    (hP : ¬(i.gensetKVA * i.powerFactor - i.loadKVA * i.powerFactor ≤ 0))
    (hT : i.bessSizeKWh * (i.socMax - i.socMin) /
            (i.gensetKVA * i.powerFactor - i.loadKVA * i.powerFactor) ≤ 0 ∨
          i.bessSizeKWh * (i.socMax - i.socMin) / (i.loadKVA * i.powerFactor) ≤ 0) :
    bessRoi i t = .error .invalidDutyCycle := by
  simp only [bessRoi]
  rw [if_neg h1, if_neg h2, if_neg h3, if_neg h4]
  simp only [hB]
  rw [if_neg hb0]
  simp only [hF]
  rw [if_neg hf0, if_neg hE, if_neg hP, if_pos hT]

/-- A strategy that does not save fuel is rejected. -/
theorem bessRoi_error_saved (i : RoiInputs) (t : List FuelCurvePoint)
    (h1 : ¬(i.gensetKVA ≤ 0 ∨ i.loadKVA ≤ 0 ∨ i.powerFactor ≤ 0))
    (h2 : ¬(i.hoursPerDay ≤ 0 ∨ i.bessSizeKWh ≤ 0 ∨ i.bessPricePerKWh ≤ 0))
    (h3 : ¬(i.socMax ≤ i.socMin ∨ 1 < i.socMax ∨ i.socMin < 0))
    (h4 : ¬(i.loadKVA * i.powerFactor ≥ i.gensetKVA * i.powerFactor))
    (fb : ℚ)
    (hB : fuelLphInterpSimple i.gensetKVA (i.loadKVA / i.gensetKVA) t = .ok fb)
    (hb0 : ¬(fb ≤ 0))
    (ff : ℚ)
    (hF : fuelLphInterpSimple i.gensetKVA 1 t = .ok ff)
    (hf0 : ¬(ff ≤ 0))
    (hE : ¬(i.bessSizeKWh * (i.socMax - i.socMin) ≤ 0))
    (hP : ¬(i.gensetKVA * i.powerFactor - i.loadKVA * i.powerFactor ≤ 0))
    (hT : ¬(i.bessSizeKWh * (i.socMax - i.socMin) /
              (i.gensetKVA * i.powerFactor - i.loadKVA * i.powerFactor) ≤ 0 ∨
            i.bessSizeKWh * (i.socMax - i.socMin) / (i.loadKVA * i.powerFactor) ≤ 0))
    (hS : fb * i.hoursPerDay -
            ff * (i.hoursPerDay *
              (i.bessSizeKWh * (i.socMax - i.socMin) /
                  (i.gensetKVA * i.powerFactor - i.loadKVA * i.powerFactor) /
                (i.bessSizeKWh * (i.socMax - i.socMin) /
                    (i.gensetKVA * i.powerFactor - i.loadKVA * i.powerFactor) +
                  i.bessSizeKWh * (i.socMax - i.socMin) /
                    (i.loadKVA * i.powerFactor)))) ≤ 0) :
    bessRoi i t = .error .strategyDoesNotSaveFuel := by
  simp only [bessRoi]
  rw [if_neg h1, if_neg h2, if_neg h3, if_neg h4]
  simp only [hB]
  rw [if_neg hb0]
  simp only [hF]
  rw [if_neg hf0, if_neg hE, if_neg hP, if_neg hT, if_pos hS]

/-- With every gate and guard passing, `bessRoi` returns the record built by
the trailing `let` chain. -/
theorem bessRoi_ok_eval (i : RoiInputs) (t : List FuelCurvePoint)
    (h1 : ¬(i.gensetKVA ≤ 0 ∨ i.loadKVA ≤ 0 ∨ i.powerFactor ≤ 0))
    (h2 : ¬(i.hoursPerDay ≤ 0 ∨ i.bessSizeKWh ≤ 0 ∨ i.bessPricePerKWh ≤ 0))
    (h3 : ¬(i.socMax ≤ i.socMin ∨ 1 < i.socMax ∨ i.socMin < 0))
    (h4 : ¬(i.loadKVA * i.powerFactor ≥ i.gensetKVA * i.powerFactor))
    (fb : ℚ)
    (hB : fuelLphInterpSimple i.gensetKVA (i.loadKVA / i.gensetKVA) t = .ok fb)
    (hb0 : ¬(fb ≤ 0))
    (ff : ℚ)
    (hF : fuelLphInterpSimple i.gensetKVA 1 t = .ok ff)
    (hf0 : ¬(ff ≤ 0))
    (hE : ¬(i.bessSizeKWh * (i.socMax - i.socMin) ≤ 0))
    (hP : ¬(i.gensetKVA * i.powerFactor - i.loadKVA * i.powerFactor ≤ 0))
    (hT : ¬(i.bessSizeKWh * (i.socMax - i.socMin) /
              (i.gensetKVA * i.powerFactor - i.loadKVA * i.powerFactor) ≤ 0 ∨
            i.bessSizeKWh * (i.socMax - i.socMin) / (i.loadKVA * i.powerFactor) ≤ 0))
    (hS : ¬(fb * i.hoursPerDay -
              ff * (i.hoursPerDay *
                (i.bessSizeKWh * (i.socMax - i.socMin) /
                    (i.gensetKVA * i.powerFactor - i.loadKVA * i.powerFactor) /
                  (i.bessSizeKWh * (i.socMax - i.socMin) /
                      (i.gensetKVA * i.powerFactor - i.loadKVA * i.powerFactor) +
                    i.bessSizeKWh * (i.socMax - i.socMin) /
                      (i.loadKVA * i.powerFactor)))) ≤ 0)) :
    bessRoi i t = .ok (successOutputs i fb ff) := by
  simp only [bessRoi]
  rw [if_neg h1, if_neg h2, if_neg h3, if_neg h4]
  simp only [hB]
  rw [if_neg hb0]
  simp only [hF]
  rw [if_neg hf0, if_neg hE, if_neg hP, if_neg hT, if_neg hS]
  rfl

/-- Full characterization of the success path of `bessRoi`: the run returns a
result exactly when every validation gate and derivation guard passes, and the
result is then the record built by the trailing `let` chain from the two
interpolated fuel rates. -/
theorem bessRoi_ok_iff (i : RoiInputs) (t : List FuelCurvePoint) (r : RoiOutputs) :
    bessRoi i t = .ok r ↔
      ¬(i.gensetKVA ≤ 0 ∨ i.loadKVA ≤ 0 ∨ i.powerFactor ≤ 0) ∧
      ¬(i.hoursPerDay ≤ 0 ∨ i.bessSizeKWh ≤ 0 ∨ i.bessPricePerKWh ≤ 0) ∧
      ¬(i.socMax ≤ i.socMin ∨ 1 < i.socMax ∨ i.socMin < 0) ∧
      ¬(i.loadKVA * i.powerFactor ≥ i.gensetKVA * i.powerFactor) ∧
      ∃ fb ff,
        fuelLphInterpSimple i.gensetKVA (i.loadKVA / i.gensetKVA) t = .ok fb ∧
        ¬(fb ≤ 0) ∧
        fuelLphInterpSimple i.gensetKVA 1 t = .ok ff ∧
        ¬(ff ≤ 0) ∧
        ¬(i.bessSizeKWh * (i.socMax - i.socMin) ≤ 0) ∧
        ¬(i.gensetKVA * i.powerFactor - i.loadKVA * i.powerFactor ≤ 0) ∧
        ¬(i.bessSizeKWh * (i.socMax - i.socMin) /
            (i.gensetKVA * i.powerFactor - i.loadKVA * i.powerFactor) ≤ 0 ∨
          i.bessSizeKWh * (i.socMax - i.socMin) /
            (i.loadKVA * i.powerFactor) ≤ 0) ∧
        ¬(fb * i.hoursPerDay -
            ff * (i.hoursPerDay *
              (i.bessSizeKWh * (i.socMax - i.socMin) /
                  (i.gensetKVA * i.powerFactor - i.loadKVA * i.powerFactor) /
                (i.bessSizeKWh * (i.socMax - i.socMin) /
                    (i.gensetKVA * i.powerFactor - i.loadKVA * i.powerFactor) +
                  i.bessSizeKWh * (i.socMax - i.socMin) /
                    (i.loadKVA * i.powerFactor)))) ≤ 0) ∧
        r = successOutputs i fb ff := by
  constructor
  · intro h
    by_cases h1 : i.gensetKVA ≤ 0 ∨ i.loadKVA ≤ 0 ∨ i.powerFactor ≤ 0
    · rw [bessRoi_error_elec i t h1] at h
      exact Except.noConfusion h
    by_cases h2 : i.hoursPerDay ≤ 0 ∨ i.bessSizeKWh ≤ 0 ∨ i.bessPricePerKWh ≤ 0
    · rw [bessRoi_error_sizing i t h1 h2] at h
      exact Except.noConfusion h
    by_cases h3 : i.socMax ≤ i.socMin ∨ 1 < i.socMax ∨ i.socMin < 0
    · rw [bessRoi_error_soc i t h1 h2 h3] at h
      exact Except.noConfusion h
    by_cases h4 : i.loadKVA * i.powerFactor ≥ i.gensetKVA * i.powerFactor
    · rw [bessRoi_error_headroom i t h1 h2 h3 h4] at h
      exact Except.noConfusion h
    cases hB : fuelLphInterpSimple i.gensetKVA (i.loadKVA / i.gensetKVA) t with
    | error e =>
      rw [bessRoi_error_interpBase i t h1 h2 h3 h4 e hB] at h
      exact Except.noConfusion h
    | ok fb =>
      by_cases hb0 : fb ≤ 0
      · rw [bessRoi_error_baseNonpos i t h1 h2 h3 h4 fb hB hb0] at h
        exact Except.noConfusion h
      cases hF : fuelLphInterpSimple i.gensetKVA 1 t with
      | error e =>
        rw [bessRoi_error_interpFull i t h1 h2 h3 h4 fb hB hb0 e hF] at h
        exact Except.noConfusion h
      | ok ff =>
        by_cases hf0 : ff ≤ 0
        · rw [bessRoi_error_fullNonpos i t h1 h2 h3 h4 fb hB hb0 ff hF hf0] at h
          exact Except.noConfusion h
        by_cases hE : i.bessSizeKWh * (i.socMax - i.socMin) ≤ 0
        · rw [bessRoi_error_socEnergy i t h1 h2 h3 h4 fb hB hb0 ff hF hf0 hE] at h
          exact Except.noConfusion h
        by_cases hP : i.gensetKVA * i.powerFactor - i.loadKVA * i.powerFactor ≤ 0
        · rw [bessRoi_error_surplus i t h1 h2 h3 h4 fb hB hb0 ff hF hf0 hE hP] at h
          exact Except.noConfusion h
        by_cases hT : i.bessSizeKWh * (i.socMax - i.socMin) /
              (i.gensetKVA * i.powerFactor - i.loadKVA * i.powerFactor) ≤ 0 ∨
            i.bessSizeKWh * (i.socMax - i.socMin) / (i.loadKVA * i.powerFactor) ≤ 0
        · rw [bessRoi_error_duty i t h1 h2 h3 h4 fb hB hb0 ff hF hf0 hE hP hT] at h
          exact Except.noConfusion h
        by_cases hS : fb * i.hoursPerDay -
            ff * (i.hoursPerDay *
              (i.bessSizeKWh * (i.socMax - i.socMin) /
                  (i.gensetKVA * i.powerFactor - i.loadKVA * i.powerFactor) /
                (i.bessSizeKWh * (i.socMax - i.socMin) /
                    (i.gensetKVA * i.powerFactor - i.loadKVA * i.powerFactor) +
                  i.bessSizeKWh * (i.socMax - i.socMin) /
                    (i.loadKVA * i.powerFactor)))) ≤ 0
        · rw [bessRoi_error_saved i t h1 h2 h3 h4 fb hB hb0 ff hF hf0 hE hP hT hS] at h
          exact Except.noConfusion h
        rw [bessRoi_ok_eval i t h1 h2 h3 h4 fb hB hb0 ff hF hf0 hE hP hT hS] at h
        exact ⟨h1, h2, h3, h4, fb, ff, rfl, hb0, rfl, hf0, hE, hP, hT, hS,
          (Except.ok.inj h).symm⟩
  · rintro ⟨h1, h2, h3, h4, fb, ff, heqB, hb0, heqF, hf0, hE, hP, hT, hS, hr⟩
    subst hr
    exact bessRoi_ok_eval i t h1 h2 h3 h4 fb heqB hb0 ff heqF hf0 hE hP hT hS

theorem successOutputs_capex (i : RoiInputs) (fb ff : ℚ) :
    (successOutputs i fb ff).capex = i.bessSizeKWh * i.bessPricePerKWh := rfl

theorem successOutputs_fuelSaved (i : RoiInputs) (fb ff : ℚ) :
    (successOutputs i fb ff).fuelSavedPerDayLitres =
      fb * i.hoursPerDay -
        ff * (i.hoursPerDay *
          (i.bessSizeKWh * (i.socMax - i.socMin) /
              (i.gensetKVA * i.powerFactor - i.loadKVA * i.powerFactor) /
            (i.bessSizeKWh * (i.socMax - i.socMin) /
                (i.gensetKVA * i.powerFactor - i.loadKVA * i.powerFactor) +
              i.bessSizeKWh * (i.socMax - i.socMin) /
                (i.loadKVA * i.powerFactor)))) := rfl

theorem successOutputs_savingsCost (i : RoiInputs) (fb ff : ℚ) :
    (successOutputs i fb ff).annualFuelSavingsCost =
      (successOutputs i fb ff).fuelSavedPerDayLitres * 365 * i.dieselPricePerL := rfl

theorem successOutputs_payback (i : RoiInputs) (fb ff : ℚ) :
    (successOutputs i fb ff).paybackYears =
      if (successOutputs i fb ff).annualFuelSavingsCost > 0 then
        some ((successOutputs i fb ff).capex /
          (successOutputs i fb ff).annualFuelSavingsCost)
      else none := rfl

theorem successOutputs_roi5 (i : RoiInputs) (fb ff : ℚ) :
    (successOutputs i fb ff).simpleFiveYearROI =
      if (successOutputs i fb ff).capex > 0 then
        some (((successOutputs i fb ff).annualFuelSavingsCost * 5 -
            (successOutputs i fb ff).capex) /
          (successOutputs i fb ff).capex * 100)
      else none := rfl

theorem successOutputs_cycles (i : RoiInputs) (fb ff : ℚ) :
    (successOutputs i fb ff).bessCyclesPerDay =
      if i.gensetKVA * i.powerFactor - i.loadKVA * i.powerFactor > 0 ∧
          i.bessSizeKWh > 0 ∧ i.socMax > i.socMin then
        if i.bessSizeKWh * (i.socMax - i.socMin) *
            (i.gensetKVA * i.powerFactor - i.loadKVA * i.powerFactor +
              i.loadKVA * i.powerFactor) ≠ 0 then
          i.hoursPerDay * (i.gensetKVA * i.powerFactor - i.loadKVA * i.powerFactor) *
              (i.loadKVA * i.powerFactor) /
            (i.bessSizeKWh * (i.socMax - i.socMin) *
              (i.gensetKVA * i.powerFactor - i.loadKVA * i.powerFactor +
                i.loadKVA * i.powerFactor))
        else 0
      else 0 := rfl

/-- C10: every successful `bessRoi` run returns a record with positive capex,
a present (non-null) five-year ROI, strictly positive battery cycles per day,
and strictly positive daily fuel savings. -/
theorem bessRoi_success_invariants (i : RoiInputs) (t : List FuelCurvePoint)
    (r : RoiOutputs) (hok : bessRoi i t = .ok r) :
    0 < r.capex ∧ (∃ v, r.simpleFiveYearROI = some v) ∧
    0 < r.bessCyclesPerDay ∧ 0 < r.fuelSavedPerDayLitres := by
  rcases (bessRoi_ok_iff i t r).mp hok with
    ⟨h1, h2, h3, h4, fb, ff, hB, hb0, hF, hf0, hE, hP, hT, hS, hr⟩
  subst hr
  push_neg at h1 h2 h3 hE hP hS
  obtain ⟨hg, hl, hpf⟩ := h1
  obtain ⟨hh, hsz, hpr⟩ := h2
  have hcapex : (0 : ℚ) < i.bessSizeKWh * i.bessPricePerKWh := mul_pos hsz hpr
  have hloadKW : (0 : ℚ) < i.loadKVA * i.powerFactor := mul_pos hl hpf
  refine ⟨?_, ?_, ?_, ?_⟩
  · rw [successOutputs_capex]
    exact hcapex
  · rw [successOutputs_roi5, successOutputs_capex, if_pos hcapex]
    exact ⟨_, rfl⟩
  · rw [successOutputs_cycles]
    have hsum : (0 : ℚ) < i.gensetKVA * i.powerFactor - i.loadKVA * i.powerFactor +
        i.loadKVA * i.powerFactor := add_pos hP hloadKW
    have hden : i.bessSizeKWh * (i.socMax - i.socMin) *
        (i.gensetKVA * i.powerFactor - i.loadKVA * i.powerFactor +
          i.loadKVA * i.powerFactor) ≠ 0 := ne_of_gt (mul_pos hE hsum)
    rw [if_pos ⟨hP, hsz, h3.1⟩, if_pos hden]
    exact div_pos (mul_pos (mul_pos hh hP) hloadKW) (mul_pos hE hsum)
  · rw [successOutputs_fuelSaved]
    exact hS

/-- Witness for C10 at scenario A. -/
theorem bessRoi_success_invariants_witness :
    0 < scenarioAOutput.capex ∧
    (∃ v, scenarioAOutput.simpleFiveYearROI = some v) ∧
    0 < scenarioAOutput.bessCyclesPerDay ∧
    0 < scenarioAOutput.fuelSavedPerDayLitres :=
  bessRoi_success_invariants scenarioA fuelCurveTable scenarioAOutput scenarioA_eval

/-- C4: on every successful run, the battery-cycles value computed with the
unsimplified denominator `usableEnergyKWh * (surplusPowerKW + loadPowerKW)`
equals the collapsed form with denominator `usableEnergyKWh * gensetPowerKW`. -/
theorem bessRoi_cycles_collapsed (i : RoiInputs) (t : List FuelCurvePoint)
    (r : RoiOutputs) (hok : bessRoi i t = .ok r) :
    r.bessCyclesPerDay =
      i.hoursPerDay * (i.gensetKVA * i.powerFactor - i.loadKVA * i.powerFactor) *
          (i.loadKVA * i.powerFactor) /
        (i.bessSizeKWh * (i.socMax - i.socMin) * (i.gensetKVA * i.powerFactor)) := by
  rcases (bessRoi_ok_iff i t r).mp hok with
    ⟨h1, h2, h3, h4, fb, ff, hB, hb0, hF, hf0, hE, hP, hT, hS, hr⟩
  subst hr
  push_neg at h1 h2 h3 hE hP
  obtain ⟨hg, hl, hpf⟩ := h1
  obtain ⟨hh, hsz, hpr⟩ := h2
  have hloadKW : (0 : ℚ) < i.loadKVA * i.powerFactor := mul_pos hl hpf
  have hsum : (0 : ℚ) < i.gensetKVA * i.powerFactor - i.loadKVA * i.powerFactor +
      i.loadKVA * i.powerFactor := add_pos hP hloadKW
  have hden : i.bessSizeKWh * (i.socMax - i.socMin) *
      (i.gensetKVA * i.powerFactor - i.loadKVA * i.powerFactor +
        i.loadKVA * i.powerFactor) ≠ 0 := ne_of_gt (mul_pos hE hsum)
  rw [successOutputs_cycles, if_pos ⟨hP, hsz, h3.1⟩, if_pos hden,
    sub_add_cancel]

/-- Witness for C4 at scenario A. -/
theorem bessRoi_cycles_collapsed_witness :
    scenarioAOutput.bessCyclesPerDay =
      (10 : ℚ) * (125 * 0.8 - 56 * 0.8) * (56 * 0.8) /
        (520 * (1 - 0.2) * (125 * 0.8)) :=
  bessRoi_cycles_collapsed scenarioA fuelCurveTable scenarioAOutput scenarioA_eval

/-- C1: scenario A succeeds, with load fraction 0.448, load power 44.8 kW,
capex 338000, and a present, strictly positive payback period. -/
theorem scenarioA_endToEnd :
    ∃ r, bessRoi scenarioA fuelCurveTable = .ok r ∧
      r.loadPct = 0.448 ∧ r.loadKW = 44.8 ∧ r.capex = 338000 ∧
      ∃ p, r.paybackYears = some p ∧ 0 < p :=
  ⟨scenarioAOutput, scenarioA_eval,
   by with_unfolding_all rfl,
   by with_unfolding_all rfl,
   rfl,
   8450000 / 484647, rfl, by norm_num⟩

/-- C2 counterexample: with a zero diesel price, every validation gate and
derivation guard passes and `annualFuelSavingsCost = 0`, yet
`simpleFiveYearROI` is present (not null), contradicting the claim that both
optional fields are absent. -/
theorem payback_absence_counterexample :
    bessRoi freeFuelInputs fuelCurveTable = .ok freeFuelOutput ∧
    freeFuelOutput.annualFuelSavingsCost = 0 ∧
    freeFuelOutput.paybackYears = none ∧
    freeFuelOutput.simpleFiveYearROI ≠ none :=
  ⟨freeFuel_eval, rfl, rfl, fun h => Option.noConfusion h⟩

/-- C2 (amended): on a successful run with `annualFuelSavingsCost = 0`,
`paybackYears` is absent, while `simpleFiveYearROI` is present and equals
−100 (capex is strictly positive on every accepted input). -/
theorem zero_savings_payback_absent (i : RoiInputs) (t : List FuelCurvePoint)
    (r : RoiOutputs) (hok : bessRoi i t = .ok r)
    (h0 : r.annualFuelSavingsCost = 0) :
    r.paybackYears = none ∧ r.simpleFiveYearROI = some (-100) := by
  rcases (bessRoi_ok_iff i t r).mp hok with
    ⟨h1, h2, h3, h4, fb, ff, hB, hb0, hF, hf0, hE, hP, hT, hS, hr⟩
  subst hr
  push_neg at h2
  obtain ⟨hh, hsz, hpr⟩ := h2
  have hcapex : (0 : ℚ) < i.bessSizeKWh * i.bessPricePerKWh := mul_pos hsz hpr
  have hcapex' : (successOutputs i fb ff).capex > 0 := by
    rw [successOutputs_capex]
    exact hcapex
  constructor
  · rw [successOutputs_payback, if_neg (by rw [h0]; exact lt_irrefl 0)]
  · rw [successOutputs_roi5, if_pos hcapex', h0, successOutputs_capex]
    have hC : i.bessSizeKWh * i.bessPricePerKWh ≠ 0 := ne_of_gt hcapex
    congr 1
    field_simp

/-- Witness for the amended C2 at the zero-diesel-price scenario. -/
theorem zero_savings_payback_absent_witness :
    freeFuelOutput.paybackYears = none ∧
    freeFuelOutput.simpleFiveYearROI = some (-100) :=
  zero_savings_payback_absent freeFuelInputs fuelCurveTable freeFuelOutput
    freeFuel_eval rfl

/-- C9: `dieselPricePerL` is never validated: any accepted run stays accepted
when the diesel price is replaced by an arbitrary value, and when that value
is non-positive the annual fuel savings cost is non-positive and
`paybackYears` is absent. -/
theorem bessRoi_ignores_diesel_price (i : RoiInputs) (t : List FuelCurvePoint)
    (r : RoiOutputs) (hok : bessRoi i t = .ok r) (p : ℚ) :
    ∃ rr, bessRoi { i with dieselPricePerL := p } t = .ok rr ∧
      (p ≤ 0 → rr.annualFuelSavingsCost ≤ 0 ∧ rr.paybackYears = none) := by
  rcases (bessRoi_ok_iff i t r).mp hok with
    ⟨h1, h2, h3, h4, fb, ff, hB, hb0, hF, hf0, hE, hP, hT, hS, hr⟩
  refine ⟨successOutputs { i with dieselPricePerL := p } fb ff, ?_, ?_⟩
  · exact (bessRoi_ok_iff { i with dieselPricePerL := p } t _).mpr
      ⟨h1, h2, h3, h4, fb, ff, hB, hb0, hF, hf0, hE, hP, hT, hS, rfl⟩
  · intro hp
    have hsaved : (0 : ℚ) <
        (successOutputs { i with dieselPricePerL := p } fb ff).fuelSavedPerDayLitres := by
      rw [successOutputs_fuelSaved]
      push_neg at hS
      exact hS
    have hcost : (successOutputs { i with dieselPricePerL := p } fb ff).annualFuelSavingsCost ≤ 0 := by
      rw [successOutputs_savingsCost]
      exact mul_nonpos_iff.mpr
        (Or.inl ⟨le_of_lt (mul_pos hsaved (by norm_num)), hp⟩)
    refine ⟨hcost, ?_⟩
    rw [successOutputs_payback, if_neg (not_lt.mpr hcost)]

/-- C3: the four validation gates of `bessRoi` are checked in the stated
order, each failing fast with its own distinct error exactly when it is the
first violated gate, and (being the error case of an `Except`) producing no
partial result. -/
theorem bessRoi_validation_gates (i : RoiInputs) (t : List FuelCurvePoint) :
    (bessRoi i t = .error .invalidElectricalInputs ↔
      (i.gensetKVA ≤ 0 ∨ i.loadKVA ≤ 0 ∨ i.powerFactor ≤ 0)) ∧
    (bessRoi i t = .error .invalidSizingInputs ↔
      (¬(i.gensetKVA ≤ 0 ∨ i.loadKVA ≤ 0 ∨ i.powerFactor ≤ 0) ∧
       (i.hoursPerDay ≤ 0 ∨ i.bessSizeKWh ≤ 0 ∨ i.bessPricePerKWh ≤ 0))) ∧
    (bessRoi i t = .error .invalidSocWindow ↔
      (¬(i.gensetKVA ≤ 0 ∨ i.loadKVA ≤ 0 ∨ i.powerFactor ≤ 0) ∧
       ¬(i.hoursPerDay ≤ 0 ∨ i.bessSizeKWh ≤ 0 ∨ i.bessPricePerKWh ≤ 0) ∧
       (i.socMax ≤ i.socMin ∨ 1 < i.socMax ∨ i.socMin < 0))) ∧
    (bessRoi i t = .error .noChargingHeadroom ↔
      (¬(i.gensetKVA ≤ 0 ∨ i.loadKVA ≤ 0 ∨ i.powerFactor ≤ 0) ∧
       ¬(i.hoursPerDay ≤ 0 ∨ i.bessSizeKWh ≤ 0 ∨ i.bessPricePerKWh ≤ 0) ∧
       ¬(i.socMax ≤ i.socMin ∨ 1 < i.socMax ∨ i.socMin < 0) ∧
       i.loadKVA * i.powerFactor ≥ i.gensetKVA * i.powerFactor)) := by
  by_cases h1 : i.gensetKVA ≤ 0 ∨ i.loadKVA ≤ 0 ∨ i.powerFactor ≤ 0
  · rw [bessRoi_error_elec i t h1]
    simp [h1]
  by_cases h2 : i.hoursPerDay ≤ 0 ∨ i.bessSizeKWh ≤ 0 ∨ i.bessPricePerKWh ≤ 0
  · rw [bessRoi_error_sizing i t h1 h2]
    simp [h1, h2]
  by_cases h3 : i.socMax ≤ i.socMin ∨ 1 < i.socMax ∨ i.socMin < 0
  · rw [bessRoi_error_soc i t h1 h2 h3]
    simp [h1, h2, h3]
  by_cases h4 : i.loadKVA * i.powerFactor ≥ i.gensetKVA * i.powerFactor
  · rw [bessRoi_error_headroom i t h1 h2 h3 h4]
    simp [h1, h2, h3, h4]
  cases hB : fuelLphInterpSimple i.gensetKVA (i.loadKVA / i.gensetKVA) t with
  | error e =>
    rw [bessRoi_error_interpBase i t h1 h2 h3 h4 e hB]
    rcases fuelLphInterpSimple_error _ _ _ _ hB with he | he <;> subst he <;>
      simp [h1, h2, h3, h4]
  | ok fb =>
    by_cases hb0 : fb ≤ 0
    · rw [bessRoi_error_baseNonpos i t h1 h2 h3 h4 fb hB hb0]
      simp [h1, h2, h3, h4]
    cases hF : fuelLphInterpSimple i.gensetKVA 1 t with
    | error e =>
      rw [bessRoi_error_interpFull i t h1 h2 h3 h4 fb hB hb0 e hF]
      rcases fuelLphInterpSimple_error _ _ _ _ hF with he | he <;> subst he <;>
        simp [h1, h2, h3, h4]
    | ok ff =>
      by_cases hf0 : ff ≤ 0
      · rw [bessRoi_error_fullNonpos i t h1 h2 h3 h4 fb hB hb0 ff hF hf0]
        simp [h1, h2, h3, h4]
      by_cases hE : i.bessSizeKWh * (i.socMax - i.socMin) ≤ 0
      · rw [bessRoi_error_socEnergy i t h1 h2 h3 h4 fb hB hb0 ff hF hf0 hE]
        simp [h1, h2, h3, h4]
      by_cases hP : i.gensetKVA * i.powerFactor - i.loadKVA * i.powerFactor ≤ 0
      · rw [bessRoi_error_surplus i t h1 h2 h3 h4 fb hB hb0 ff hF hf0 hE hP]
        simp [h1, h2, h3, h4]
      by_cases hT : i.bessSizeKWh * (i.socMax - i.socMin) /
            (i.gensetKVA * i.powerFactor - i.loadKVA * i.powerFactor) ≤ 0 ∨
          i.bessSizeKWh * (i.socMax - i.socMin) / (i.loadKVA * i.powerFactor) ≤ 0
      · rw [bessRoi_error_duty i t h1 h2 h3 h4 fb hB hb0 ff hF hf0 hE hP hT]
        simp [h1, h2, h3, h4]
      by_cases hS : fb * i.hoursPerDay -
          ff * (i.hoursPerDay *
            (i.bessSizeKWh * (i.socMax - i.socMin) /
                (i.gensetKVA * i.powerFactor - i.loadKVA * i.powerFactor) /
              (i.bessSizeKWh * (i.socMax - i.socMin) /
                  (i.gensetKVA * i.powerFactor - i.loadKVA * i.powerFactor) +
                i.bessSizeKWh * (i.socMax - i.socMin) /
                  (i.loadKVA * i.powerFactor)))) ≤ 0
      · rw [bessRoi_error_saved i t h1 h2 h3 h4 fb hB hb0 ff hF hf0 hE hP hT hS]
        simp [h1, h2, h3, h4]
      rw [bessRoi_ok_eval i t h1 h2 h3 h4 fb hB hb0 ff hF hf0 hE hP hT hS]
      simp [h1, h2, h3, h4]

/-- The concrete inputs violating each of the four gates in turn. -/
def badElecInputs : RoiInputs := { scenarioA with gensetKVA := -5 }

def badSizingInputs : RoiInputs := { scenarioA with hoursPerDay := 0 }

def badSocInputs : RoiInputs := { scenarioA with socMax := 0.2, socMin := 0.5 }

def badHeadroomInputs : RoiInputs := { scenarioA with loadKVA := 125 }

/-- Witness for C3: one concrete failing input per gate. -/
theorem bessRoi_validation_gates_witness :
    bessRoi badElecInputs fuelCurveTable = .error .invalidElectricalInputs ∧
    bessRoi badSizingInputs fuelCurveTable = .error .invalidSizingInputs ∧
    bessRoi badSocInputs fuelCurveTable = .error .invalidSocWindow ∧
    bessRoi badHeadroomInputs fuelCurveTable = .error .noChargingHeadroom :=
  ⟨(bessRoi_validation_gates badElecInputs fuelCurveTable).1.mpr
      (by norm_num [badElecInputs, scenarioA]),
   (bessRoi_validation_gates badSizingInputs fuelCurveTable).2.1.mpr
      (by norm_num [badSizingInputs, scenarioA]),
   (bessRoi_validation_gates badSocInputs fuelCurveTable).2.2.1.mpr
      (by norm_num [badSocInputs, scenarioA]),
   (bessRoi_validation_gates badHeadroomInputs fuelCurveTable).2.2.2.mpr
      (by norm_num [badHeadroomInputs, scenarioA])⟩

/-- Witness for C9: scenario A with the diesel price replaced by 0. -/
theorem bessRoi_ignores_diesel_price_witness :
    ∃ rr, bessRoi { scenarioA with dieselPricePerL := (0 : ℚ) } fuelCurveTable = .ok rr ∧
      rr.annualFuelSavingsCost ≤ 0 ∧ rr.paybackYears = none := by
  obtain ⟨rr, hok, himp⟩ :=
    bessRoi_ignores_diesel_price scenarioA fuelCurveTable scenarioAOutput
      scenarioA_eval 0
  exact ⟨rr, hok, himp le_rfl⟩

end BessRoiSpec
